import Mathlib

/-!
Shallow embedding of `src/churn_project/modeling/enrich.py`: the
`EnriquecimentoDataset` strategy-based load/save abstraction and the
`EnriquecimentoDatasetTelco` feature-enrichment pipeline, together with
proofs of the specified properties.

A pandas DataFrame is embedded as an ordered list of named columns of
scalar cells; the process-wide NumPy generator is an explicit stream of
naturals threaded through the pipeline, with each distribution modelled
by its documented support (a Poisson draw is an arbitrary nonnegative
integer, `randint(lo, hi)` lies in `[lo, hi)`); file I/O is a trace of
events next to an `Except` result.
-/

namespace Churn

/-- A scalar cell of a tabular buffer (a pandas DataFrame entry).
`sqrtRat q` represents the real number `√q`, the exact value `np.std`
produces; keeping it symbolic keeps the development executable. -/
inductive Cell where
  | str (s : String)
  | int (n : Int)
  | rat (q : ℚ)
  | intList (xs : List Int)
  | sqrtRat (q : ℚ)
  | na
  deriving DecidableEq, Repr

/-- A pandas DataFrame: an ordered sequence of named columns. -/
structure DataFrame where
  cols : List (String × List Cell)
  deriving DecidableEq, Repr, Inhabited

namespace DataFrame

/-- Column read `df[name]`: the first column carrying the name. -/
def getCol (df : DataFrame) (name : String) : Option (List Cell) :=
  (df.cols.find? (fun c => c.1 == name)).map (fun c => c.2)

/-- Column assignment `df[name] = xs`: replaces an existing column in
place, otherwise appends a new column at the end (pandas semantics). -/
def setCol (df : DataFrame) (name : String) (xs : List Cell) : DataFrame :=
  if df.cols.any (fun c => c.1 == name) then
    ⟨df.cols.map (fun c => if c.1 == name then (name, xs) else c)⟩
  else
    ⟨df.cols ++ [(name, xs)]⟩

/-- `len(df)`: the shared row count; in this embedding, the length of the
first column (0 for a column-less frame). -/
def nrows (df : DataFrame) : Nat :=
  match df.cols with
  | [] => 0
  | c :: _ => c.2.length

/-- Well-formedness: every column holds exactly `n` rows. -/
def wf (n : Nat) (df : DataFrame) : Prop :=
  ∀ c ∈ df.cols, c.2.length = n

end DataFrame

/-- The process-wide NumPy random generator (`np.random`), as a stream of
naturals with a cursor; each elementary draw consumes one element. -/
structure RNG where
  stream : Nat → Nat
  idx : Nat

/-- Consume `n` raw draws from the generator. -/
def RNG.take (r : RNG) (n : Nat) : List Nat × RNG :=
  ((List.range n).map (fun i => r.stream (r.idx + i)), ⟨r.stream, r.idx + n⟩)

/-- `np.random.poisson(mean, n)`: `n` independent draws; only the support
(arbitrary nonnegative integers) is modelled, the mean is not. -/
def np_poisson (mean : Nat) (n : Nat) (r : RNG) : List Nat × RNG :=
  r.take n

/-- `np.random.randint(lo, hi, n)`: `n` integers from `[lo, hi)`,
modelled as `lo + s % (hi - lo)`. -/
def np_randint (lo hi : Nat) (n : Nat) (r : RNG) : List Nat × RNG :=
  (((r.take n).1).map (fun s => lo + s % (hi - lo)), (r.take n).2)

/-- `np.where(cond, xs, ys)`: elementwise selection. -/
def npWhere : List Bool → List Cell → List Cell → List Cell
  | b :: bs, x :: xs, y :: ys => (if b then x else y) :: npWhere bs xs ys
  | _, _, _ => []

/-- The scalar comparison `cell == (k : int)` as pandas evaluates it
elementwise: true only on an equal integer cell; strings and missing
values compare false. -/
def cellEqInt (c : Cell) (k : Int) : Bool :=
  match c with
  | .int m => m == k
  | _ => false

/-- `Series.apply` with a stateful per-row helper: maps `f` across the
rows in order, threading the shared random generator. -/
def mapRng {α β : Type} (f : α → RNG → β × RNG) : List α → RNG → List β × RNG
  | [], r => ([], r)
  | a :: as, r =>
    let p := f a r
    let q := mapRng f as p.2
    (p.1 :: q.1, q.2)

/-- `str.lower()` on an extension: ASCII case folding, applied
characterwise. -/
def lowerStr (s : String) : String :=
  String.mk (s.toList.map Char.toLower)

/-- The final path component, as `os.path.splitext` sees it: everything
after the last slash. -/
def basenameOf (p : String) : String :=
  String.mk ((p.toList.reverse.takeWhile (fun c => c != '/')).reverse)

/-- `os.path.splitext(p)[1]`: the suffix of the final path component from
its last dot; the component's leading dots never start an extension. -/
def extOf (p : String) : String :=
  let cs := (basenameOf p).toList
  let lead := cs.takeWhile (fun c => c == '.')
  let rest := cs.drop lead.length
  let revTail := rest.reverse.takeWhile (fun c => c != '.')
  if revTail.length == rest.length then ""
  else String.mk ('.' :: revTail.reverse)

/-- `os.path.dirname(p)`: the part before the last slash, with trailing
slashes stripped unless the head is slashes only; `""` when there is no
slash. -/
def dirname (p : String) : String :=
  let cs := p.toList
  let tail := cs.reverse.takeWhile (fun c => c != '/')
  if tail.length == cs.length then ""
  else
    let head := cs.take (cs.length - tail.length)
    if head.all (fun c => c == '/') then String.mk head
    else String.mk (head.reverse.dropWhile (fun c => c == '/')).reverse

/-- Filesystem effects performed by load and save. -/
inductive IOEvent where
  | readFile (p : String)
  | makedirs (d : String)
  | writeFile (p : String)
  deriving DecidableEq, Repr

/-- Error kinds: the `ValueError` raised on an unsupported extension, and
the project-wide `CustomException` wrapper used everywhere else. -/
inductive Err where
  | unsupportedFormat (ext : String)
  | customException
  deriving DecidableEq, Repr

namespace EnriquecimentoDataset

/-- Registered read strategies, keyed by lower-cased extension. -/
def _estrategia_leitura : List String := [".csv", ".xlsx", ".parquet"]

/-- Registered save strategies, keyed by lower-cased extension. -/
def _estrategias_salvamento : List String := [".csv", ".parquet"]

/-- `EnriquecimentoDataset.from_file`.  `fs` maps a path to the tabular
content a successful reader strategy returns for it (`none`: the read
fails).  The filesystem-effect trace is returned next to the result; the
constructor copies the loaded frame. -/
def from_file (fs : String → Option DataFrame) (caminho_arquivo : String) :
    List IOEvent × Except Err DataFrame :=
  let extensao := lowerStr (extOf caminho_arquivo)
  if _estrategia_leitura.contains extensao then
    match fs caminho_arquivo with
    | some df => ([.readFile caminho_arquivo], .ok ⟨df.cols⟩)
    | none => ([.readFile caminho_arquivo], .error .customException)
  else
    ([], .error (.unsupportedFormat extensao))

/-- `EnriquecimentoDataset.salvar`: creates the parent directory first
whenever the output path has one, and only then dispatches on the
lower-cased extension. -/
def salvar (df : DataFrame) (caminho_saida : String) :
    List IOEvent × Except Err Unit :=
  let diretorio_pai := dirname caminho_saida
  let ev0 : List IOEvent :=
    if diretorio_pai != "" then [.makedirs diretorio_pai] else []
  let extensao := lowerStr (extOf caminho_saida)
  if _estrategias_salvamento.contains extensao then
    (ev0 ++ [.writeFile caminho_saida], .ok ())
  else
    (ev0, .error (.unsupportedFormat extensao))

end EnriquecimentoDataset

/-- A minimal heap of tabular buffers for aliasing statements; a
reference is an index into the heap. -/
abbrev Heap : Type := List DataFrame

/-- `EnriquecimentoDataset.__init__` on the heap: the constructor stores
`dataframe.copy()` — a fresh buffer holding the caller's current content —
and hands back the extended heap with the pipeline's fresh reference. -/
def initPipeline (h : Heap) (caller : Nat) : Heap × Nat :=
  (h ++ [h.getD caller ⟨[]⟩], h.length)

/-- Run a sequence of in-place enrichment steps at reference `r`: each
step rewrites the buffer stored at `r` and leaves every other cell of the
heap alone. -/
def runSteps (h : Heap) (r : Nat) (steps : List (DataFrame → DataFrame)) : Heap :=
  steps.foldl (fun acc f => acc.set r (f (acc.getD r ⟨[]⟩))) h

namespace EnriquecimentoDatasetTelco

/-- The dictionary `{'Yes': 1, 'No': 0}` as `Series.map` applies it to a
single cell: keys map to their value, any other value becomes missing. -/
def churn_map (c : Cell) : Cell :=
  if c = .str "Yes" then .int 1
  else if c = .str "No" then .int 0
  else .na

/-- `preparar_coluna_churn`: replaces the `Churn` column by its image
under `churn_map`; a missing `Churn` column raises (wrapped KeyError). -/
def preparar_coluna_churn (df : DataFrame) : Except Err DataFrame :=
  match df.getCol "Churn" with
  | none => .error .customException
  | some vs => .ok (df.setCol "Churn" (vs.map churn_map))

/-- `gerar_features_interacao`: three synthetic columns, each built as
`np.where(df.Churn == 1, drawA, drawB)` from per-column fresh draws of
`len(df)` values, consumed in the source's evaluation order. -/
def gerar_features_interacao (df : DataFrame) (rng : RNG) :
    Except Err (DataFrame × RNG) :=
  match df.getCol "Churn" with
  | none => .error .customException
  | some churn =>
    let n := df.nrows
    let cond := churn.map (fun c => cellEqInt c 1)
    let p2 := np_poisson 2 n rng
    let p10 := np_poisson 10 n p2.2
    let df1 := df.setCol "num_logins_last_30d"
      (npWhere cond (p2.1.map (fun (k : Nat) => Cell.int (k : Int))) (p10.1.map (fun (k : Nat) => Cell.int (k : Int))))
    let p3 := np_poisson 3 n p10.2
    let p1 := np_poisson 1 n p3.2
    let df2 := df1.setCol "support_tickets_last_90d"
      (npWhere cond (p3.1.map (fun (k : Nat) => Cell.int (k : Int))) (p1.1.map (fun (k : Nat) => Cell.int (k : Int))))
    let rA := np_randint 15 60 n p1.2
    let rB := np_randint 1 15 n rA.2
    let df3 := df2.setCol "last_interaction_days_ago"
      (npWhere cond (rA.1.map (fun (k : Nat) => Cell.int (k : Int))) (rB.1.map (fun (k : Nat) => Cell.int (k : Int))))
    .ok (df3, rB.2)

/-- `np.linspace(1, 0.3, 6)` in exact arithmetic: `1 - (7/50)·k`. -/
def linspace6 : List ℚ :=
  (List.range 6).map (fun (k : Nat) => 1 - (7 / 50) * (k : ℚ))

/-- `.astype(int)` on a float: truncation toward zero. -/
def truncQ (q : ℚ) : Int :=
  if 0 ≤ q then ⌊q⌋ else ⌈q⌉

/-- `_generate_usage_series`: six Poisson(10) draws, damped elementwise by
the linear trend when the row churned, truncated to integers. -/
def generate_usage_series (churned : Cell) (r : RNG) : List Int × RNG :=
  let base := np_poisson 10 6 r
  let trend : List ℚ :=
    if cellEqInt churned 1 then linspace6 else (List.range 6).map (fun (_ : Nat) => (1 : ℚ))
  (List.zipWith (fun (b : Nat) (q : ℚ) => truncQ ((b : ℚ) * q)) base.1 trend, base.2)

/-- Sum of a list of integers, as a rational. -/
def qsum (xs : List Int) : ℚ := (xs.map (fun (x : Int) => (x : ℚ))).sum

/-- `np.mean`. -/
def qmean (xs : List Int) : ℚ := qsum xs / (xs.length : ℚ)

/-- `np.mean(x[-3:])`: the arithmetic mean of the last three entries. -/
def avg_last_3 (xs : List Int) : ℚ := qmean (xs.drop (xs.length - 3))

/-- `np.polyfit(range(6), x, 1)[0]`: the least-squares slope over the six
sample points `t = 0..5` (`Σt = 15`, `6·Σt² - (Σt)² = 105`). -/
def polyfit6_slope (xs : List Int) : ℚ :=
  let tx := (List.range 6).zip xs
  let s1 := (tx.map (fun (p : Nat × Int) => (p.1 : ℚ) * (p.2 : ℚ))).sum
  (6 * s1 - 15 * qsum xs) / 105

/-- The exact square of `np.std`: the population variance. -/
def pop_variance (xs : List Int) : ℚ :=
  ((xs.map (fun (x : Int) => ((x : ℚ) - qmean xs) ^ 2)).sum) / (xs.length : ℚ)

/-- `gerar_features_uso_recente`: a per-row six-month usage series plus
three derived scalars (least-squares trend, population standard
deviation, mean of the last three months). -/
def gerar_features_uso_recente (df : DataFrame) (rng : RNG) :
    Except Err (DataFrame × RNG) :=
  match df.getCol "Churn" with
  | none => .error .customException
  | some churn =>
    let usage := mapRng generate_usage_series churn rng
    let df1 := df.setCol "usage_last_6m" (usage.1.map (fun xs => Cell.intList xs))
    let df2 := df1.setCol "trend_usage" (usage.1.map (fun xs => Cell.rat (polyfit6_slope xs)))
    let df3 := df2.setCol "std_usage" (usage.1.map (fun xs => Cell.sqrtRat (pop_variance xs)))
    let df4 := df3.setCol "avg_usage_last_3m" (usage.1.map (fun xs => Cell.rat (avg_last_3 xs)))
    .ok (df4, usage.2)

/-- `aplicar_enriquecimento_padrao`: the chained call
`preparar_coluna_churn().gerar_features_interacao().gerar_features_uso_recente()`,
returning the pipeline's final state. -/
def aplicar_enriquecimento_padrao (df : DataFrame) (rng : RNG) :
    Except Err (DataFrame × RNG) :=
  match preparar_coluna_churn df with
  | .error e => .error e
  | .ok d1 =>
    match gerar_features_interacao d1 rng with
    | .error e => .error e
    | .ok p => gerar_features_uso_recente p.1 p.2

end EnriquecimentoDatasetTelco

/-! ### Structural lemmas about the embedding -/

namespace DataFrame

theorem find?_eq_none_of_any_false {l : List (String × List Cell)}
    {p : String × List Cell → Bool} (h : l.any p = false) : l.find? p = none := by
  rw [List.find?_eq_none]
  intro x hx
  have := List.any_eq_false.mp h x hx
  simpa using this

theorem find?_map_set (name : String) (xs : List Cell) :
    ∀ l : List (String × List Cell), l.any (fun c => c.1 == name) = true →
      (l.map (fun c => if c.1 == name then (name, xs) else c)).find?
        (fun c => c.1 == name) = some (name, xs)
  | [], h => by simp at h
  | c :: l, h => by
    by_cases hc : (c.1 == name) = true
    · simp only [List.map_cons, if_pos hc]
      rw [@List.find?_cons_of_pos _ (fun c => c.1 == name) (name, xs) _ (by simp)]
    · have h2 : l.any (fun c => c.1 == name) = true := by
        simp only [List.any_cons, Bool.or_eq_true] at h
        rcases h with h | h
        · exact absurd h hc
        · exact h
      simp only [List.map_cons, if_neg hc]
      rw [@List.find?_cons_of_neg _ (fun c => c.1 == name) c _ hc]
      exact find?_map_set name xs l h2

theorem find?_append_new (name : String) (xs : List Cell)
    (l : List (String × List Cell)) (h : l.any (fun c => c.1 == name) = false) :
    (l ++ [(name, xs)]).find? (fun c => c.1 == name) = some (name, xs) := by
  rw [List.find?_append, find?_eq_none_of_any_false h]
  simp

/-- Reading back the column just assigned gives the assigned values. -/
theorem getCol_setCol_self (df : DataFrame) (name : String) (xs : List Cell) :
    (df.setCol name xs).getCol name = some xs := by
  unfold setCol getCol
  cases ha : df.cols.any (fun c => c.1 == name) with
  | true =>
    rw [if_pos rfl]
    rw [find?_map_set name xs df.cols ha]
    rfl
  | false =>
    rw [if_neg (by simp)]
    rw [find?_append_new name xs df.cols ha]
    rfl

/-- Assigning one column leaves every other column unchanged. -/
theorem getCol_setCol_ne (df : DataFrame) {name other : String} (xs : List Cell)
    (h : other ≠ name) : (df.setCol name xs).getCol other = df.getCol other := by
  unfold setCol getCol
  cases ha : df.cols.any (fun c => c.1 == name) with
  | true =>
    rw [if_pos rfl]
    rw [List.find?_map]
    have hp : ((fun c : String × List Cell => c.1 == other) ∘
        (fun c => if c.1 == name then (name, xs) else c)) =
        (fun c : String × List Cell => c.1 == other) := by
      funext c
      by_cases hc : (c.1 == name) = true
      · have hc1 : c.1 = name := by simpa using hc
        simp [Function.comp, if_pos hc, hc1, Ne.symm h]
      · have hc1 : ¬(c.1 = name) := by simpa using hc
        simp [Function.comp, hc1]
    rw [hp]
    cases hfind : df.cols.find? (fun c => c.1 == other) with
    | none => simp
    | some c0 =>
      have hco : c0.1 = other := by simpa using List.find?_some hfind
      have hcn : ¬(c0.1 = name) := by rw [hco]; exact h
      simp [hcn]
  | false =>
    rw [if_neg (by simp)]
    rw [List.find?_append]
    have hno : (name == other) = false := by
      simp only [beq_eq_false_iff_ne, ne_eq]
      exact Ne.symm h
    have hnone : ([((name, xs))].find? (fun c => c.1 == other)) = none := by
      simp [List.find?, hno]
    rw [hnone]
    simp

/-- Column assignment preserves well-formedness when the new column has
the shared row count. -/
theorem wf_setCol {df : DataFrame} {n : Nat} {xs : List Cell} (name : String)
    (hw : df.wf n) (hx : xs.length = n) : (df.setCol name xs).wf n := by
  unfold wf setCol at *
  by_cases ha : df.cols.any (fun c => c.1 == name)
  · simp only [ha, if_true]
    intro c hc
    rcases List.mem_map.mp hc with ⟨c0, hc0, rfl⟩
    by_cases h0 : c0.1 == name
    · simp [h0, hx]
    · simp only [h0, if_false]
      exact hw c0 hc0
  · simp only [ha, if_false]
    intro c hc
    rcases List.mem_append.mp hc with h1 | h1
    · exact hw c h1
    · have : c = (name, xs) := by simpa using h1
      rw [this]
      exact hx

theorem setCol_cols_ne_nil (df : DataFrame) (name : String) (xs : List Cell) :
    (df.setCol name xs).cols ≠ [] := by
  unfold setCol
  by_cases ha : df.cols.any (fun c => c.1 == name)
  · simp only [ha, if_true]
    intro hcontra
    have hnil : df.cols = [] := by simpa using hcontra
    rw [hnil] at ha
    simp at ha
  · simp only [ha, if_false]
    simp

theorem wf_nrows {df : DataFrame} {n : Nat} (hw : df.wf n) (hne : df.cols ≠ []) :
    df.nrows = n := by
  cases hc : df.cols with
  | nil => exact absurd hc hne
  | cons c l =>
    have : c ∈ df.cols := by rw [hc]; exact List.mem_cons_self c l
    simp [nrows, hc, hw c this]

theorem getCol_length {df : DataFrame} {n : Nat} {name : String} {vs : List Cell}
    (hw : df.wf n) (h : df.getCol name = some vs) : vs.length = n := by
  unfold getCol at h
  cases hfind : df.cols.find? (fun c => c.1 == name) with
  | none => rw [hfind] at h; simp at h
  | some c0 =>
    rw [hfind] at h
    simp at h
    have hm := List.mem_of_find?_eq_some hfind
    rw [← h]
    exact hw c0 hm

theorem getCol_cols_ne_nil {df : DataFrame} {name : String} {vs : List Cell}
    (h : df.getCol name = some vs) : df.cols ≠ [] := by
  intro hnil
  unfold getCol at h
  rw [hnil] at h
  simp at h

end DataFrame

theorem npWhere_length : ∀ (bs : List Bool) (xs ys : List Cell),
    (npWhere bs xs ys).length = min bs.length (min xs.length ys.length)
  | b :: bs, x :: xs, y :: ys => by
    simp only [npWhere, List.length_cons, npWhere_length bs xs ys]
    omega
  | [], xs, ys => by
    have he : npWhere [] xs ys = [] := rfl
    rw [he]
    simp
  | b :: bs, [], ys => by
    have he : npWhere (b :: bs) [] ys = [] := rfl
    rw [he]
    simp
  | b :: bs, x :: xs, [] => by
    have he : npWhere (b :: bs) (x :: xs) [] = [] := rfl
    rw [he]
    simp

theorem npWhere_getElem? : ∀ (bs : List Bool) (xs ys : List Cell) (i : Nat)
    (b : Bool) (x y : Cell), bs[i]? = some b → xs[i]? = some x → ys[i]? = some y →
    (npWhere bs xs ys)[i]? = some (if b then x else y)
  | b0 :: bs, x0 :: xs, y0 :: ys, 0, b, x, y => by
    intro hb hx hy
    simp only [List.getElem?_cons_zero, Option.some_inj] at hb hx hy
    subst hb; subst hx; subst hy
    simp [npWhere]
  | b0 :: bs, x0 :: xs, y0 :: ys, i + 1, b, x, y => by
    intro hb hx hy
    simp only [List.getElem?_cons_succ] at hb hx hy
    simpa [npWhere] using npWhere_getElem? bs xs ys i b x y hb hx hy
  | [], _, _, i, b, x, y => by intro hb _ _; simp at hb
  | b0 :: bs, [], _, i, b, x, y => by intro _ hx _; simp at hx
  | b0 :: bs, x0 :: xs, [], i, b, x, y => by intro _ _ hy; simp at hy

theorem RNG.take_length (r : RNG) (n : Nat) : ((r.take n).1).length = n := by
  simp [RNG.take]

theorem RNG.take_getElem? (r : RNG) (n i : Nat) (h : i < n) :
    ((r.take n).1)[i]? = some (r.stream (r.idx + i)) := by
  simp [RNG.take, List.getElem?_map, List.getElem?_range, h]

theorem np_poisson_length (mean n : Nat) (r : RNG) :
    ((np_poisson mean n r).1).length = n := by
  simp [np_poisson, RNG.take_length]

theorem np_poisson_getElem? (mean n : Nat) (r : RNG) (i : Nat) (h : i < n) :
    ((np_poisson mean n r).1)[i]? = some (r.stream (r.idx + i)) := by
  simp [np_poisson, RNG.take_getElem? r n i h]

theorem np_randint_length (lo hi n : Nat) (r : RNG) :
    ((np_randint lo hi n r).1).length = n := by
  simp [np_randint, RNG.take]

theorem np_randint_getElem? (lo hi n : Nat) (r : RNG) (i : Nat) (h : i < n) :
    ((np_randint lo hi n r).1)[i]? = some (lo + r.stream (r.idx + i) % (hi - lo)) := by
  simp [np_randint, List.getElem?_map, RNG.take_getElem? r n i h]

theorem mapRng_length {α β : Type} (f : α → RNG → β × RNG) :
    ∀ (as : List α) (r : RNG), ((mapRng f as r).1).length = as.length
  | [], _ => rfl
  | a :: as, r => by simp [mapRng, mapRng_length f as]

theorem mapRng_getElem? {α β : Type} (f : α → RNG → β × RNG) :
    ∀ (as : List α) (r : RNG) (i : Nat) (b : β),
      ((mapRng f as r).1)[i]? = some b →
      ∃ a r2, as[i]? = some a ∧ b = (f a r2).1
  | [], r, i, b => by intro h; simp [mapRng] at h
  | a :: as, r, 0, b => by
    intro h
    simp only [mapRng, List.getElem?_cons_zero, Option.some_inj] at h
    exact ⟨a, r, by simp, h.symm⟩
  | a :: as, r, i + 1, b => by
    intro h
    simp only [mapRng, List.getElem?_cons_succ] at h
    rcases mapRng_getElem? f as (f a r).2 i b h with ⟨a2, r2, h1, h2⟩
    exact ⟨a2, r2, by simpa using h1, h2⟩

theorem npWhere_cells_length {n : Nat} {cond : List Bool} {xs ys : List Cell}
    (h1 : cond.length = n) (h2 : xs.length = n) (h3 : ys.length = n) :
    (npWhere cond xs ys).length = n := by
  rw [npWhere_length, h1, h2, h3]
  simp

namespace EnriquecimentoDatasetTelco

/-- A successful `preparar_coluna_churn` maps the `Churn` column through
the replacement dictionary and changes nothing else. -/
theorem preparar_eq {df : DataFrame} {vs : List Cell}
    (h : df.getCol "Churn" = some vs) :
    preparar_coluna_churn df = .ok (df.setCol "Churn" (vs.map churn_map)) := by
  unfold preparar_coluna_churn
  rw [h]

theorem preparar_wf {df d : DataFrame} {n : Nat} (hw : df.wf n)
    (h : preparar_coluna_churn df = .ok d) : d.wf n ∧ d.nrows = df.nrows := by
  unfold preparar_coluna_churn at h
  cases hcol : df.getCol "Churn" with
  | none => rw [hcol] at h; simp at h
  | some vs =>
    rw [hcol] at h
    simp only [Except.ok.injEq] at h
    subst h
    have hvs : vs.length = n := DataFrame.getCol_length hw hcol
    have hwd : (df.setCol "Churn" (vs.map churn_map)).wf n :=
      DataFrame.wf_setCol "Churn" hw (by simp [hvs])
    refine ⟨hwd, ?_⟩
    rw [DataFrame.wf_nrows hwd (DataFrame.setCol_cols_ne_nil df _ _),
      DataFrame.wf_nrows hw (DataFrame.getCol_cols_ne_nil hcol)]

theorem interacao_wf {df d : DataFrame} {n : Nat} {rng r2 : RNG} (hw : df.wf n)
    (h : gerar_features_interacao df rng = .ok (d, r2)) :
    d.wf n ∧ d.nrows = df.nrows := by
  unfold gerar_features_interacao at h
  cases hcol : df.getCol "Churn" with
  | none => rw [hcol] at h; simp at h
  | some vs =>
    rw [hcol] at h
    simp only [Except.ok.injEq, Prod.mk.injEq] at h
    obtain ⟨hd, hr⟩ := h
    subst hd
    have hvs : vs.length = n := DataFrame.getCol_length hw hcol
    have hnr : df.nrows = n :=
      DataFrame.wf_nrows hw (DataFrame.getCol_cols_ne_nil hcol)
    have hwd : DataFrame.wf n ((((df.setCol "num_logins_last_30d"
        (npWhere (vs.map (fun c => cellEqInt c 1))
          ((np_poisson 2 df.nrows rng).1.map (fun (k : Nat) => Cell.int (k : Int)))
          ((np_poisson 10 df.nrows (np_poisson 2 df.nrows rng).2).1.map
            (fun (k : Nat) => Cell.int (k : Int)))))).setCol "support_tickets_last_90d"
        (npWhere (vs.map (fun c => cellEqInt c 1))
          ((np_poisson 3 df.nrows
            (np_poisson 10 df.nrows (np_poisson 2 df.nrows rng).2).2).1.map
            (fun (k : Nat) => Cell.int (k : Int)))
          ((np_poisson 1 df.nrows (np_poisson 3 df.nrows
            (np_poisson 10 df.nrows (np_poisson 2 df.nrows rng).2).2).2).1.map
            (fun (k : Nat) => Cell.int (k : Int))))).setCol "last_interaction_days_ago"
        (npWhere (vs.map (fun c => cellEqInt c 1))
          ((np_randint 15 60 df.nrows
            (np_poisson 1 df.nrows (np_poisson 3 df.nrows
              (np_poisson 10 df.nrows (np_poisson 2 df.nrows rng).2).2).2).2).1.map
            (fun (k : Nat) => Cell.int (k : Int)))
          ((np_randint 1 15 df.nrows (np_randint 15 60 df.nrows
            (np_poisson 1 df.nrows (np_poisson 3 df.nrows
              (np_poisson 10 df.nrows (np_poisson 2 df.nrows rng).2).2).2).2).2).1.map
            (fun (k : Nat) => Cell.int (k : Int))))) := by
      refine DataFrame.wf_setCol _ (DataFrame.wf_setCol _
        (DataFrame.wf_setCol _ hw ?_) ?_) ?_
      · refine npWhere_cells_length ?_ ?_ ?_
        · simp [hvs]
        · simp [np_poisson_length, hnr]
        · simp [np_poisson_length, hnr]
      · refine npWhere_cells_length ?_ ?_ ?_
        · simp [hvs]
        · simp [np_poisson_length, hnr]
        · simp [np_poisson_length, hnr]
      · refine npWhere_cells_length ?_ ?_ ?_
        · simp [hvs]
        · simp [np_randint_length, hnr]
        · simp [np_randint_length, hnr]
    exact ⟨hwd, by
      rw [DataFrame.wf_nrows hwd (DataFrame.setCol_cols_ne_nil _ _ _), hnr]⟩

theorem uso_wf {df d : DataFrame} {n : Nat} {rng r2 : RNG} (hw : df.wf n)
    (h : gerar_features_uso_recente df rng = .ok (d, r2)) :
    d.wf n ∧ d.nrows = df.nrows := by
  unfold gerar_features_uso_recente at h
  cases hcol : df.getCol "Churn" with
  | none => rw [hcol] at h; simp at h
  | some vs =>
    rw [hcol] at h
    simp only [Except.ok.injEq, Prod.mk.injEq] at h
    obtain ⟨hd, hr⟩ := h
    subst hd
    have hvs : vs.length = n := DataFrame.getCol_length hw hcol
    have hu : ((mapRng generate_usage_series vs rng).1).length = n := by
      rw [mapRng_length, hvs]
    refine ⟨DataFrame.wf_setCol _ (DataFrame.wf_setCol _ (DataFrame.wf_setCol _
      (DataFrame.wf_setCol _ hw (by simp [hu])) (by simp [hu]))
      (by simp [hu])) (by simp [hu]), ?_⟩
    refine Eq.trans (DataFrame.wf_nrows ?_ (DataFrame.setCol_cols_ne_nil _ _ _))
      (Eq.trans rfl (DataFrame.wf_nrows hw (DataFrame.getCol_cols_ne_nil hcol)).symm)
    exact DataFrame.wf_setCol _ (DataFrame.wf_setCol _ (DataFrame.wf_setCol _
      (DataFrame.wf_setCol _ hw (by simp [hu])) (by simp [hu]))
      (by simp [hu])) (by simp [hu])

/-- `aplicar_enriquecimento_padrao` is the monadic sequencing of the three
steps, a shared characterization. -/
theorem aplicar_eq_bind (df : DataFrame) (rng : RNG) :
    aplicar_enriquecimento_padrao df rng =
      (preparar_coluna_churn df).bind (fun d1 =>
        (gerar_features_interacao d1 rng).bind (fun p =>
          gerar_features_uso_recente p.1 p.2)) := by
  unfold aplicar_enriquecimento_padrao
  cases h1 : preparar_coluna_churn df with
  | error e => simp [Except.bind]
  | ok d1 =>
    cases h2 : gerar_features_interacao d1 rng with
    | error e => simp [Except.bind, h2]
    | ok p => simp [Except.bind, h2]

theorem aplicar_wf {df d : DataFrame} {n : Nat} {rng r2 : RNG} (hw : df.wf n)
    (h : aplicar_enriquecimento_padrao df rng = .ok (d, r2)) :
    d.wf n ∧ d.nrows = df.nrows := by
  rw [aplicar_eq_bind] at h
  cases h1 : preparar_coluna_churn df with
  | error e => rw [h1] at h; simp [Except.bind] at h
  | ok d1 =>
    rw [h1] at h
    simp only [Except.bind] at h
    obtain ⟨hw1, hn1⟩ := preparar_wf hw h1
    cases h2 : gerar_features_interacao d1 rng with
    | error e => rw [h2] at h; simp [Except.bind] at h
    | ok p =>
      obtain ⟨d2, rr⟩ := p
      rw [h2] at h
      simp only [Except.bind] at h
      obtain ⟨hw2, hn2⟩ := interacao_wf hw1 h2
      obtain ⟨hw3, hn3⟩ := uso_wf hw2 h
      refine ⟨hw3, ?_⟩
      rw [hn3, hn2, hn1]

/-- Every generated usage series has exactly six entries. -/
theorem generate_usage_series_length (c : Cell) (r : RNG) :
    ((generate_usage_series c r).1).length = 6 := by
  unfold generate_usage_series
  cases hc : cellEqInt c 1 <;>
    simp [List.length_zipWith, np_poisson_length, linspace6]

/-- On a six-entry series, `np.mean(x[-3:])` is the sum of the last three
entries over three. -/
theorem avg_last_3_of_len6 {xs : List Int} (h : xs.length = 6) :
    avg_last_3 xs = ((xs.drop 3).map (fun (x : Int) => (x : ℚ))).sum / 3 := by
  unfold avg_last_3 qmean qsum
  rw [h]
  norm_num [List.length_drop, h]

end EnriquecimentoDatasetTelco

/-- Steps run at one heap reference never change what another reference
holds. -/
theorem runSteps_getD_ne (r c : Nat) (hrc : c ≠ r) :
    ∀ (steps : List (DataFrame → DataFrame)) (hp : Heap),
      (runSteps hp r steps).getD c ⟨[]⟩ = hp.getD c ⟨[]⟩
  | [], hp => rfl
  | f :: fs, hp => by
    have hstep : runSteps hp r (f :: fs) =
        runSteps (hp.set r (f (hp.getD r ⟨[]⟩))) r fs := rfl
    rw [hstep, runSteps_getD_ne r c hrc fs]
    rw [List.getD_eq_getElem?_getD, List.getElem?_set_ne (Ne.symm hrc)]
    exact (List.getD_eq_getElem?_getD hp c ⟨[]⟩).symm

theorem lt_of_getElem?_some {α : Type} {l : List α} {i : Nat} {a : α}
    (h : l[i]? = some a) : i < l.length := by
  by_contra hn
  push_neg at hn
  rw [List.getElem?_eq_none hn] at h
  exact Option.noConfusion h

/-- The `np.where(churn == 1, randint(loA,hiA,n), randint(loB,hiB,n))`
pattern: rows whose label cell is the integer 1 receive a value in
`[loA, hiA)` and rows whose label cell is the integer 0 a value in
`[loB, hiB)`. -/
theorem npWhere_randint_spec (vs : List Cell) (loA hiA loB hiB n : Nat)
    (ra rb : RNG) (hn : vs.length = n)
    (hA : 0 < hiA - loA) (hB : 0 < hiB - loB) (i : Nat) :
    (vs[i]? = some (.int 1) →
      ∃ k : Nat,
        (npWhere (vs.map (fun c => cellEqInt c 1))
          ((np_randint loA hiA n ra).1.map (fun (k : Nat) => Cell.int (k : Int)))
          ((np_randint loB hiB n rb).1.map (fun (k : Nat) => Cell.int (k : Int))))[i]? =
          some (.int (k : Int)) ∧ loA ≤ k ∧ k < hiA) ∧
    (vs[i]? = some (.int 0) →
      ∃ k : Nat,
        (npWhere (vs.map (fun c => cellEqInt c 1))
          ((np_randint loA hiA n ra).1.map (fun (k : Nat) => Cell.int (k : Int)))
          ((np_randint loB hiB n rb).1.map (fun (k : Nat) => Cell.int (k : Int))))[i]? =
          some (.int (k : Int)) ∧ loB ≤ k ∧ k < hiB) := by
  constructor
  · intro hvi
    have hilt : i < n := hn ▸ lt_of_getElem?_some hvi
    have hcond : (vs.map (fun c => cellEqInt c 1))[i]? = some true := by
      rw [List.getElem?_map, hvi]
      rfl
    have hAi : ((np_randint loA hiA n ra).1.map
        (fun (k : Nat) => Cell.int (k : Int)))[i]? =
        some (Cell.int ((loA + ra.stream (ra.idx + i) % (hiA - loA) : Nat) : Int)) := by
      rw [List.getElem?_map, np_randint_getElem? loA hiA n ra i hilt]
      rfl
    have hBi : ((np_randint loB hiB n rb).1.map
        (fun (k : Nat) => Cell.int (k : Int)))[i]? =
        some (Cell.int ((loB + rb.stream (rb.idx + i) % (hiB - loB) : Nat) : Int)) := by
      rw [List.getElem?_map, np_randint_getElem? loB hiB n rb i hilt]
      rfl
    have hsel := npWhere_getElem? _ _ _ i true _ _ hcond hAi hBi
    refine ⟨loA + ra.stream (ra.idx + i) % (hiA - loA), by simpa using hsel,
      Nat.le_add_right _ _, ?_⟩
    have := Nat.mod_lt (ra.stream (ra.idx + i)) hA
    omega
  · intro hvi
    have hilt : i < n := hn ▸ lt_of_getElem?_some hvi
    have hcond : (vs.map (fun c => cellEqInt c 1))[i]? = some false := by
      rw [List.getElem?_map, hvi]
      rfl
    have hAi : ((np_randint loA hiA n ra).1.map
        (fun (k : Nat) => Cell.int (k : Int)))[i]? =
        some (Cell.int ((loA + ra.stream (ra.idx + i) % (hiA - loA) : Nat) : Int)) := by
      rw [List.getElem?_map, np_randint_getElem? loA hiA n ra i hilt]
      rfl
    have hBi : ((np_randint loB hiB n rb).1.map
        (fun (k : Nat) => Cell.int (k : Int)))[i]? =
        some (Cell.int ((loB + rb.stream (rb.idx + i) % (hiB - loB) : Nat) : Int)) := by
      rw [List.getElem?_map, np_randint_getElem? loB hiB n rb i hilt]
      rfl
    have hsel := npWhere_getElem? _ _ _ i false _ _ hcond hAi hBi
    refine ⟨loB + rb.stream (rb.idx + i) % (hiB - loB), by simpa using hsel,
      Nat.le_add_right _ _, ?_⟩
    have := Nat.mod_lt (rb.stream (rb.idx + i)) hB
    omega

/-! ### The claims -/

open EnriquecimentoDatasetTelco

/-- C1 counterexample: with the output path `out/data.xlsx`, whose
extension has no registered save strategy, `salvar` still performs I/O
before failing — it creates the parent directory `out` — so the claim
that no file or directory is created does not hold for `salvar`. -/
theorem C1_counterexample :
    (EnriquecimentoDataset.salvar ⟨[]⟩ "out/data.xlsx").2 =
      .error (.unsupportedFormat ".xlsx") ∧
    (EnriquecimentoDataset.salvar ⟨[]⟩ "out/data.xlsx").1 =
      [IOEvent.makedirs "out"] := by
  exact ⟨rfl, rfl⟩

/-- C1 (amended): on a path whose lower-cased extension has no registered
strategy, `from_file` fails with the unsupported-format error and performs
no I/O at all, and `salvar` fails with the unsupported-format error and
writes no file, but first creates the missing parent directory whenever
the output path has a directory component. -/
theorem C1_unknown_extension_behavior
    (fs : String → Option DataFrame) (df : DataFrame) (p q : String)
    (hp : EnriquecimentoDataset._estrategia_leitura.contains
      (lowerStr (extOf p)) = false)
    (hq : EnriquecimentoDataset._estrategias_salvamento.contains
      (lowerStr (extOf q)) = false) :
    EnriquecimentoDataset.from_file fs p =
      ([], .error (.unsupportedFormat (lowerStr (extOf p)))) ∧
    (EnriquecimentoDataset.salvar df q).2 =
      .error (.unsupportedFormat (lowerStr (extOf q))) ∧
    (EnriquecimentoDataset.salvar df q).1 =
      (if dirname q != "" then [IOEvent.makedirs (dirname q)] else []) := by
  have hp2 : ¬(lowerStr (extOf p) ∈ EnriquecimentoDataset._estrategia_leitura) := by
    simpa using hp
  have hq2 : ¬(lowerStr (extOf q) ∈ EnriquecimentoDataset._estrategias_salvamento) := by
    simpa using hq
  refine ⟨?_, ?_, ?_⟩
  · simp [EnriquecimentoDataset.from_file, hp2]
  · simp [EnriquecimentoDataset.salvar, hq2]
  · simp [EnriquecimentoDataset.salvar, hq2]

/-- Witness for the amended C1 at the paths `data.xyz` and
`out/data.xlsx`. -/
theorem C1_unknown_extension_behavior_witness :
    (EnriquecimentoDataset._estrategia_leitura.contains
      (lowerStr (extOf "data.xyz")) = false) ∧
    (EnriquecimentoDataset._estrategias_salvamento.contains
      (lowerStr (extOf "out/data.xlsx")) = false) ∧
    (EnriquecimentoDataset.from_file (fun _ => none) "data.xyz" =
      ([], .error (.unsupportedFormat (lowerStr (extOf "data.xyz")))) ∧
    (EnriquecimentoDataset.salvar ⟨[]⟩ "out/data.xlsx").2 =
      .error (.unsupportedFormat (lowerStr (extOf "out/data.xlsx"))) ∧
    (EnriquecimentoDataset.salvar ⟨[]⟩ "out/data.xlsx").1 =
      (if dirname "out/data.xlsx" != "" then
        [IOEvent.makedirs (dirname "out/data.xlsx")] else [])) :=
  ⟨by decide, by decide,
    C1_unknown_extension_behavior (fun _ => none) ⟨[]⟩ "data.xyz"
      "out/data.xlsx" (by decide) (by decide)⟩

/-- C2: on a `Churn` column holding only the texts "Yes" and "No" (both
present), `preparar_coluna_churn` rewrites the column elementwise —
every "Yes" to 1, every "No" to 0 — and afterwards the column holds
exactly the values {0, 1}. -/
theorem C2_preparar_yes_no (df : DataFrame) (vs : List Cell)
    (hcol : df.getCol "Churn" = some vs)
    (hall : ∀ v ∈ vs, v = .str "Yes" ∨ v = .str "No")
    (hyes : Cell.str "Yes" ∈ vs) (hno : Cell.str "No" ∈ vs) :
    ∃ d, preparar_coluna_churn df = .ok d ∧
      d.getCol "Churn" = some (vs.map churn_map) ∧
      (∀ i : Nat, vs[i]? = some (.str "Yes") →
        (vs.map churn_map)[i]? = some (.int 1)) ∧
      (∀ i : Nat, vs[i]? = some (.str "No") →
        (vs.map churn_map)[i]? = some (.int 0)) ∧
      (∀ w ∈ vs.map churn_map, w = .int 0 ∨ w = .int 1) ∧
      Cell.int 1 ∈ vs.map churn_map ∧ Cell.int 0 ∈ vs.map churn_map := by
  refine ⟨_, preparar_eq hcol, DataFrame.getCol_setCol_self df _ _,
    ?_, ?_, ?_, ?_, ?_⟩
  · intro i hv
    rw [List.getElem?_map, hv]
    simp [churn_map]
  · intro i hv
    rw [List.getElem?_map, hv]
    simp [churn_map]
  · intro w hw
    rcases List.mem_map.mp hw with ⟨v, hv, rfl⟩
    rcases hall v hv with h | h <;> simp [churn_map, h]
  · exact List.mem_map.mpr ⟨_, hyes, by simp [churn_map]⟩
  · exact List.mem_map.mpr ⟨_, hno, by simp [churn_map]⟩

/-- Witness for C2 on the two-row frame `Churn = ["Yes", "No"]`. -/
theorem C2_preparar_yes_no_witness :
    ((⟨[("Churn", [Cell.str "Yes", Cell.str "No"])]⟩ : DataFrame).getCol
      "Churn" = some [Cell.str "Yes", Cell.str "No"]) ∧
    (∃ d, preparar_coluna_churn
        ⟨[("Churn", [Cell.str "Yes", Cell.str "No"])]⟩ = .ok d ∧
      d.getCol "Churn" =
        some ([Cell.str "Yes", Cell.str "No"].map churn_map) ∧
      (∀ i : Nat, [Cell.str "Yes", Cell.str "No"][i]? = some (.str "Yes") →
        ([Cell.str "Yes", Cell.str "No"].map churn_map)[i]? = some (.int 1)) ∧
      (∀ i : Nat, [Cell.str "Yes", Cell.str "No"][i]? = some (.str "No") →
        ([Cell.str "Yes", Cell.str "No"].map churn_map)[i]? = some (.int 0)) ∧
      (∀ w ∈ [Cell.str "Yes", Cell.str "No"].map churn_map,
        w = .int 0 ∨ w = .int 1) ∧
      Cell.int 1 ∈ [Cell.str "Yes", Cell.str "No"].map churn_map ∧
      Cell.int 0 ∈ [Cell.str "Yes", Cell.str "No"].map churn_map) :=
  ⟨by decide,
    C2_preparar_yes_no ⟨[("Churn", [Cell.str "Yes", Cell.str "No"])]⟩
      [Cell.str "Yes", Cell.str "No"] (by decide) (by decide)
      (by decide) (by decide)⟩

/-- C5: `preparar_coluna_churn` is not idempotent — a second application
maps the numeric values 0/1 (which are not dictionary keys) to missing,
so every previously valid row becomes missing and the buffer genuinely
changes. -/
theorem C5_preparar_not_idempotent (df : DataFrame) (vs : List Cell)
    (hcol : df.getCol "Churn" = some vs)
    (hall : ∀ v ∈ vs, v = .str "Yes" ∨ v = .str "No")
    (hyes : Cell.str "Yes" ∈ vs) :
    ∃ d1 d2, preparar_coluna_churn df = .ok d1 ∧
      preparar_coluna_churn d1 = .ok d2 ∧
      ∃ ws, d2.getCol "Churn" = some ws ∧ ws.length = vs.length ∧
        (∀ w ∈ ws, w = Cell.na) ∧ d2 ≠ d1 := by
  have h1 := preparar_eq hcol
  have hcol1 : (df.setCol "Churn" (vs.map churn_map)).getCol "Churn" =
      some (vs.map churn_map) := DataFrame.getCol_setCol_self df _ _
  have h2 := preparar_eq hcol1
  have hna : ∀ w ∈ (vs.map churn_map).map churn_map, w = Cell.na := by
    intro w hw
    rcases List.mem_map.mp hw with ⟨u, hu, rfl⟩
    rcases List.mem_map.mp hu with ⟨v, hv, rfl⟩
    rcases hall v hv with h | h <;> simp [churn_map, h]
  have hmem : Cell.int 1 ∈ vs.map churn_map :=
    List.mem_map.mpr ⟨_, hyes, by simp [churn_map]⟩
  refine ⟨df.setCol "Churn" (vs.map churn_map), _, h1, h2,
    (vs.map churn_map).map churn_map,
    DataFrame.getCol_setCol_self _ _ _, by simp, hna, ?_⟩
  intro he
  have hc2 : ((df.setCol "Churn" (vs.map churn_map)).setCol "Churn"
      ((vs.map churn_map).map churn_map)).getCol "Churn" =
      some ((vs.map churn_map).map churn_map) :=
    DataFrame.getCol_setCol_self _ _ _
  rw [he, hcol1] at hc2
  have hlist : vs.map churn_map = (vs.map churn_map).map churn_map :=
    Option.some_inj.mp hc2
  have : Cell.int 1 = Cell.na := hna _ (hlist ▸ hmem)
  exact Cell.noConfusion this

/-- Witness for C5 on the one-row frame `Churn = ["Yes"]`. -/
theorem C5_preparar_not_idempotent_witness :
    ((⟨[("Churn", [Cell.str "Yes"])]⟩ : DataFrame).getCol "Churn" =
      some [Cell.str "Yes"]) ∧
    (∃ d1 d2, preparar_coluna_churn ⟨[("Churn", [Cell.str "Yes"])]⟩ =
        .ok d1 ∧
      preparar_coluna_churn d1 = .ok d2 ∧
      ∃ ws, d2.getCol "Churn" = some ws ∧
        ws.length = [Cell.str "Yes"].length ∧
        (∀ w ∈ ws, w = Cell.na) ∧ d2 ≠ d1) :=
  ⟨by decide,
    C5_preparar_not_idempotent ⟨[("Churn", [Cell.str "Yes"])]⟩
      [Cell.str "Yes"] (by decide) (by decide) (by decide)⟩

/-- C10: whenever the `Churn` column exists, `preparar_coluna_churn`
succeeds whatever the values are; every value outside {"Yes", "No"} —
including the numeric 0/1 — is silently replaced by the missing value. -/
theorem C10_preparar_never_raises (df : DataFrame) (vs : List Cell)
    (hcol : df.getCol "Churn" = some vs) :
    ∃ d, preparar_coluna_churn df = .ok d ∧
      d.getCol "Churn" = some (vs.map churn_map) ∧
      ∀ i : Nat, ∀ v : Cell, vs[i]? = some v →
        v ≠ .str "Yes" → v ≠ .str "No" →
        (vs.map churn_map)[i]? = some Cell.na := by
  refine ⟨_, preparar_eq hcol, DataFrame.getCol_setCol_self df _ _, ?_⟩
  intro i v hv hy hn
  rw [List.getElem?_map, hv]
  simp [churn_map, hy, hn]

/-- Witness for C10 on the frame `Churn = [0, 1, "x"]` of already-numeric
and stray values. -/
theorem C10_preparar_never_raises_witness :
    ((⟨[("Churn", [Cell.int 0, Cell.int 1, Cell.str "x"])]⟩ :
        DataFrame).getCol "Churn" =
      some [Cell.int 0, Cell.int 1, Cell.str "x"]) ∧
    (∃ d, preparar_coluna_churn
        ⟨[("Churn", [Cell.int 0, Cell.int 1, Cell.str "x"])]⟩ = .ok d ∧
      d.getCol "Churn" =
        some ([Cell.int 0, Cell.int 1, Cell.str "x"].map churn_map) ∧
      ∀ i : Nat, ∀ v : Cell,
        [Cell.int 0, Cell.int 1, Cell.str "x"][i]? = some v →
        v ≠ .str "Yes" → v ≠ .str "No" →
        ([Cell.int 0, Cell.int 1, Cell.str "x"].map churn_map)[i]? =
          some Cell.na) :=
  ⟨by decide,
    C10_preparar_never_raises
      ⟨[("Churn", [Cell.int 0, Cell.int 1, Cell.str "x"])]⟩
      [Cell.int 0, Cell.int 1, Cell.str "x"] (by decide)⟩

/-- C3: on a buffer whose `Churn` column holds the integers 0/1,
`gerar_features_interacao` succeeds and fills
`last_interaction_days_ago` with a value in `[15, 60)` on every row with
Churn = 1 and a value in `[1, 15)` on every row with Churn = 0. -/
theorem C3_interacao_ranges (df : DataFrame) (rng : RNG) (n : Nat)
    (vs : List Cell) (hw : df.wf n) (hcol : df.getCol "Churn" = some vs)
    (hv : ∀ v ∈ vs, v = .int 0 ∨ v = .int 1) :
    ∃ d r, gerar_features_interacao df rng = .ok (d, r) ∧
      ∃ ws, d.getCol "last_interaction_days_ago" = some ws ∧
        ws.length = vs.length ∧
        ∀ i : Nat,
          (vs[i]? = some (.int 1) →
            ∃ k : Nat, ws[i]? = some (.int (k : Int)) ∧ 15 ≤ k ∧ k < 60) ∧
          (vs[i]? = some (.int 0) →
            ∃ k : Nat, ws[i]? = some (.int (k : Int)) ∧ 1 ≤ k ∧ k < 15) := by
  have hvs : vs.length = n := DataFrame.getCol_length hw hcol
  have hnr : df.nrows = n :=
    DataFrame.wf_nrows hw (DataFrame.getCol_cols_ne_nil hcol)
  unfold gerar_features_interacao
  rw [hcol]
  refine ⟨_, _, rfl, _, DataFrame.getCol_setCol_self _ _ _, ?_, ?_⟩
  · rw [npWhere_length]
    simp only [List.length_map, np_randint_length, hvs, hnr]
    simp
  · exact npWhere_randint_spec vs 15 60 1 15 df.nrows _ _
      (by rw [hvs, hnr]) (by norm_num) (by norm_num)

/-- Witness for C3 on the two-row frame `Churn = [1, 0]` with the
identity stream. -/
theorem C3_interacao_ranges_witness :
    (⟨[("Churn", [Cell.int 1, Cell.int 0])]⟩ : DataFrame).wf 2 ∧
    ((⟨[("Churn", [Cell.int 1, Cell.int 0])]⟩ : DataFrame).getCol "Churn" =
      some [Cell.int 1, Cell.int 0]) ∧
    (∃ d r, gerar_features_interacao ⟨[("Churn", [Cell.int 1, Cell.int 0])]⟩
        ⟨fun i => i, 0⟩ = .ok (d, r) ∧
      ∃ ws, d.getCol "last_interaction_days_ago" = some ws ∧
        ws.length = [Cell.int 1, Cell.int 0].length ∧
        ∀ i : Nat,
          ([Cell.int 1, Cell.int 0][i]? = some (.int 1) →
            ∃ k : Nat, ws[i]? = some (.int (k : Int)) ∧ 15 ≤ k ∧ k < 60) ∧
          ([Cell.int 1, Cell.int 0][i]? = some (.int 0) →
            ∃ k : Nat, ws[i]? = some (.int (k : Int)) ∧ 1 ≤ k ∧ k < 15)) :=
  ⟨by unfold DataFrame.wf; decide, by decide,
    C3_interacao_ranges ⟨[("Churn", [Cell.int 1, Cell.int 0])]⟩
      ⟨fun i => i, 0⟩ 2 [Cell.int 1, Cell.int 0]
      (by unfold DataFrame.wf; decide) (by decide) (by decide)⟩

/-- C4: after `gerar_features_uso_recente`, every `usage_last_6m` entry
has exactly six elements and the paired `avg_usage_last_3m` value equals
the arithmetic mean of the last three of them. -/
theorem C4_usage_series (df : DataFrame) (rng : RNG) (churn : List Cell)
    (hcol : df.getCol "Churn" = some churn) :
    ∃ d r, gerar_features_uso_recente df rng = .ok (d, r) ∧
      ∃ us avgs, d.getCol "usage_last_6m" = some us ∧
        d.getCol "avg_usage_last_3m" = some avgs ∧
        us.length = avgs.length ∧
        ∀ i : Nat, ∀ xs : List Int, us[i]? = some (.intList xs) →
          xs.length = 6 ∧
          avgs[i]? = some (.rat
            (((xs.drop 3).map (fun (x : Int) => (x : ℚ))).sum / 3)) := by
  unfold gerar_features_uso_recente
  rw [hcol]
  refine ⟨_, _, rfl,
    (mapRng generate_usage_series churn rng).1.map (fun xs => Cell.intList xs),
    (mapRng generate_usage_series churn rng).1.map
      (fun xs => Cell.rat (avg_last_3 xs)),
    ?_, DataFrame.getCol_setCol_self _ _ _, by simp, ?_⟩
  · rw [DataFrame.getCol_setCol_ne _ _ (by decide),
      DataFrame.getCol_setCol_ne _ _ (by decide),
      DataFrame.getCol_setCol_ne _ _ (by decide)]
    exact DataFrame.getCol_setCol_self _ _ _
  · intro i xs hx
    rw [List.getElem?_map] at hx
    cases hu : (mapRng generate_usage_series churn rng).1[i]? with
    | none => rw [hu] at hx; simp at hx
    | some u =>
      rw [hu] at hx
      simp at hx
      obtain ⟨a, r2, ha, hb⟩ :=
        mapRng_getElem? generate_usage_series churn rng i u hu
      have hlen : xs.length = 6 := by
        rw [← hx, hb]
        exact generate_usage_series_length a r2
      refine ⟨hlen, ?_⟩
      rw [List.getElem?_map, hu]
      simp [avg_last_3_of_len6 hlen, hx]

/-- Witness for C4 on the one-row frame `Churn = [0]` with the identity
stream. -/
theorem C4_usage_series_witness :
    ((⟨[("Churn", [Cell.int 0])]⟩ : DataFrame).getCol "Churn" =
      some [Cell.int 0]) ∧
    (∃ d r, gerar_features_uso_recente ⟨[("Churn", [Cell.int 0])]⟩
        ⟨fun i => i, 0⟩ = .ok (d, r) ∧
      ∃ us avgs, d.getCol "usage_last_6m" = some us ∧
        d.getCol "avg_usage_last_3m" = some avgs ∧
        us.length = avgs.length ∧
        ∀ i : Nat, ∀ xs : List Int, us[i]? = some (.intList xs) →
          xs.length = 6 ∧
          avgs[i]? = some (.rat
            (((xs.drop 3).map (fun (x : Int) => (x : ℚ))).sum / 3))) :=
  ⟨by decide,
    C4_usage_series ⟨[("Churn", [Cell.int 0])]⟩ ⟨fun i => i, 0⟩
      [Cell.int 0] (by decide)⟩

/-- C8: a `.xlsx` path has a registered read strategy, so `from_file`
succeeds and hands the constructor the loaded sheet (same row count),
while `salvar` on a `.xlsx` output path fails with the
unsupported-format error, since no save strategy is registered for it. -/
theorem C8_xlsx_read_but_not_write
    (fs : String → Option DataFrame) (p q : String) (df0 df : DataFrame)
    (hp : lowerStr (extOf p) = ".xlsx") (hread : fs p = some df0)
    (hq : lowerStr (extOf q) = ".xlsx") :
    EnriquecimentoDataset.from_file fs p =
      ([IOEvent.readFile p], .ok ⟨df0.cols⟩) ∧
    (⟨df0.cols⟩ : DataFrame).nrows = df0.nrows ∧
    (EnriquecimentoDataset.salvar df q).2 =
      .error (.unsupportedFormat ".xlsx") := by
  refine ⟨?_, rfl, ?_⟩
  · simp [EnriquecimentoDataset.from_file, hp, hread,
      EnriquecimentoDataset._estrategia_leitura]
  · simp [EnriquecimentoDataset.salvar, hq,
      EnriquecimentoDataset._estrategias_salvamento]

/-- Witness for C8: a one-row sheet behind `in.xlsx`, saving to
`out.XLSX` (the lookup lower-cases the extension). -/
theorem C8_xlsx_read_but_not_write_witness :
    lowerStr (extOf "in.xlsx") = ".xlsx" ∧
    lowerStr (extOf "out.XLSX") = ".xlsx" ∧
    (EnriquecimentoDataset.from_file
        (fun s => if s = "in.xlsx" then some ⟨[("A", [Cell.na])]⟩ else none)
        "in.xlsx" =
      ([IOEvent.readFile "in.xlsx"],
        .ok ⟨(⟨[("A", [Cell.na])]⟩ : DataFrame).cols⟩) ∧
    (⟨(⟨[("A", [Cell.na])]⟩ : DataFrame).cols⟩ : DataFrame).nrows =
      (⟨[("A", [Cell.na])]⟩ : DataFrame).nrows ∧
    (EnriquecimentoDataset.salvar ⟨[]⟩ "out.XLSX").2 =
      .error (.unsupportedFormat ".xlsx")) :=
  ⟨by decide, by decide,
    C8_xlsx_read_but_not_write
      (fun s => if s = "in.xlsx" then some ⟨[("A", [Cell.na])]⟩ else none)
      "in.xlsx" "out.XLSX" ⟨[("A", [Cell.na])]⟩ ⟨[]⟩
      (by decide) (by decide) (by decide)⟩

/-- C6: `aplicar_enriquecimento_padrao` equals running
`preparar_coluna_churn`, then `gerar_features_interacao`, then
`gerar_features_uso_recente` sequentially in that order from the same
starting buffer and generator state, the pipeline state being whatever
the chain produces. -/
theorem C6_aplicar_is_sequential_composition (df : DataFrame) (rng : RNG) :
    aplicar_enriquecimento_padrao df rng =
      (preparar_coluna_churn df).bind (fun d1 =>
        (gerar_features_interacao d1 rng).bind (fun p =>
          gerar_features_uso_recente p.1 p.2)) :=
  aplicar_eq_bind df rng

/-- C7: on a buffer whose columns all share `n` rows, every successful
enrichment step returns a buffer whose columns — old and new — again all
share `n` rows, and the row count `len(df)` is unchanged. -/
theorem C7_row_count_invariant (df : DataFrame) (n : Nat) (rng : RNG)
    (hw : df.wf n) :
    (∀ d, preparar_coluna_churn df = .ok d →
      d.wf n ∧ d.nrows = df.nrows) ∧
    (∀ d r, gerar_features_interacao df rng = .ok (d, r) →
      d.wf n ∧ d.nrows = df.nrows) ∧
    (∀ d r, gerar_features_uso_recente df rng = .ok (d, r) →
      d.wf n ∧ d.nrows = df.nrows) ∧
    (∀ d r, aplicar_enriquecimento_padrao df rng = .ok (d, r) →
      d.wf n ∧ d.nrows = df.nrows) :=
  ⟨fun _ h => preparar_wf hw h, fun _ _ h => interacao_wf hw h,
    fun _ _ h => uso_wf hw h, fun _ _ h => aplicar_wf hw h⟩

/-- Witness for C7 on the one-row frame `Churn = ["Yes"]` with the
identity stream. -/
theorem C7_row_count_invariant_witness :
    (⟨[("Churn", [Cell.str "Yes"])]⟩ : DataFrame).wf 1 ∧
    ((∀ d, preparar_coluna_churn ⟨[("Churn", [Cell.str "Yes"])]⟩ = .ok d →
      d.wf 1 ∧ d.nrows = (⟨[("Churn", [Cell.str "Yes"])]⟩ : DataFrame).nrows) ∧
    (∀ d r, gerar_features_interacao ⟨[("Churn", [Cell.str "Yes"])]⟩
        ⟨fun i => i, 0⟩ = .ok (d, r) →
      d.wf 1 ∧ d.nrows = (⟨[("Churn", [Cell.str "Yes"])]⟩ : DataFrame).nrows) ∧
    (∀ d r, gerar_features_uso_recente ⟨[("Churn", [Cell.str "Yes"])]⟩
        ⟨fun i => i, 0⟩ = .ok (d, r) →
      d.wf 1 ∧ d.nrows = (⟨[("Churn", [Cell.str "Yes"])]⟩ : DataFrame).nrows) ∧
    (∀ d r, aplicar_enriquecimento_padrao ⟨[("Churn", [Cell.str "Yes"])]⟩
        ⟨fun i => i, 0⟩ = .ok (d, r) →
      d.wf 1 ∧ d.nrows = (⟨[("Churn", [Cell.str "Yes"])]⟩ : DataFrame).nrows)) :=
  ⟨by unfold DataFrame.wf; decide,
    C7_row_count_invariant ⟨[("Churn", [Cell.str "Yes"])]⟩ 1 ⟨fun i => i, 0⟩
      (by unfold DataFrame.wf; decide)⟩

/-- C9: the constructor stores a copy of the caller's buffer under a
fresh reference, so running any sequence of in-place enrichment steps on
the pipeline object leaves the caller's buffer unchanged. -/
theorem C9_constructor_copy_no_alias (h : Heap) (caller : Nat)
    (hc : caller < h.length) (steps : List (DataFrame → DataFrame)) :
    (initPipeline h caller).2 ≠ caller ∧
    (runSteps (initPipeline h caller).1 (initPipeline h caller).2
      steps).getD caller ⟨[]⟩ = h.getD caller ⟨[]⟩ := by
  have hne : caller ≠ h.length := Nat.ne_of_lt hc
  simp only [initPipeline]
  constructor
  · exact fun hcontra => hne hcontra.symm
  · rw [runSteps_getD_ne h.length caller hne steps]
    rw [List.getD_eq_getElem?_getD, List.getElem?_append_left hc]
    exact (List.getD_eq_getElem?_getD h caller ⟨[]⟩).symm

/-- Witness for C9 on a two-buffer heap, enriching a copy of buffer 0
with a column-adding step. -/
theorem C9_constructor_copy_no_alias_witness :
    (0 : Nat) < ([⟨[("A", [Cell.na])]⟩, ⟨[]⟩] : Heap).length ∧
    ((initPipeline [⟨[("A", [Cell.na])]⟩, ⟨[]⟩] 0).2 ≠ 0 ∧
    (runSteps (initPipeline [⟨[("A", [Cell.na])]⟩, ⟨[]⟩] 0).1
      (initPipeline [⟨[("A", [Cell.na])]⟩, ⟨[]⟩] 0).2
      [fun d => d.setCol "B" [Cell.na]]).getD 0 ⟨[]⟩ =
      ([⟨[("A", [Cell.na])]⟩, ⟨[]⟩] : Heap).getD 0 ⟨[]⟩) :=
  ⟨by decide,
    C9_constructor_copy_no_alias [⟨[("A", [Cell.na])]⟩, ⟨[]⟩] 0
      (by decide) [fun d => d.setCol "B" [Cell.na]]⟩

end Churn
